import Mathlib

/-!
Shallow embedding of bisect_b2g/evaluator.py, the evaluation oracle subsystem
of the bisect_b2g repository, together with proofs of the specification claims
about it.

Conventions of the embedding:
* Python machine behaviour is made explicit: a method body that can raise is a
  function into a sum/`Except`-like type; falling off the end of a Python
  function body returns `None`, modelled as `Option.none`.
* The per-object mutable attributes of InteractiveBuildEvaluator
  (build_number, log_open, build_log, build_info) become an explicit
  `EvaluatorState` threaded through the methods.
* The external shell session of InteractiveEvaluator.eval is abstracted by its
  observable outcome (`SessionEnd`): either subprocess.call returned an exit
  code, or it raised (interruption of the session itself).
* The mozprocess ProcessHandler run of one build is abstracted by the number
  of output lines it delivered to the processOutputLine callback and its
  outcome (`BuildRun`): exit code, timeout, or operator interrupt.  Per spec
  section 5 the line/timeout callbacks fire asynchronously from the process
  monitor, so an exception inside a callback does not unwind the evaluate
  call; only their effect on the evaluator state is modelled.
-/

/-- Sentinel exit code for a good verdict (evaluator.py line 12). -/
def GOOD : Int := 69

/-- Sentinel exit code for a bad verdict (evaluator.py line 13). -/
def BAD : Int := 96

/-- How the interactive shell session (subprocess.call in
InteractiveEvaluator.eval, evaluator.py lines 88-91) ended: it either
returned an exit code, or the call itself raised (the session was
interrupted before an exit code could be returned). -/
inductive SessionEnd where
  | exited (code : Int)
  | interrupted
deriving DecidableEq

/-- The possible outcomes of one InteractiveEvaluator.eval call
(evaluator.py lines 96-109): return a boolean verdict, terminate the whole
host process with the given status (the `exit(1)` on the quit sentinel),
raise EvaluatorError carrying the unexpected code, or propagate the
interruption of the session itself. -/
inductive EvalOutcome where
  | verdict (b : Bool)
  | hostExit (status : Nat)
  | evaluatorError (code : Int)
  | interruptPropagated
deriving DecidableEq

/-- Classification of a shell-session exit code, transcribed from the
if/elif chain of InteractiveEvaluator.eval (evaluator.py lines 96-107):
GOOD gives verdict true, BAD gives verdict false, 0 logs a warning and
executes `exit(1)`, anything else raises EvaluatorError. -/
def interactiveClassify (code : Int) : EvalOutcome :=
  if code = GOOD then .verdict true
  else if code = BAD then .verdict false
  else if code = 0 then .hostExit 1
  else .evaluatorError code

/-- Observable result of one InteractiveEvaluator.eval call: the outcome,
whether the temporary rcfile generated by generate_script still exists on
disk after the call, and whether log.warning was emitted. -/
structure InteractiveResult where
  outcome : EvalOutcome
  rcfileExists : Bool
  warned : Bool
deriving DecidableEq

/-- InteractiveEvaluator.eval (evaluator.py lines 70-109).  The call first
creates the rcfile (generate_script), then runs the shell session.  If
subprocess.call raises (session interrupted), nothing after it runs: the
rcfile is not unlinked and the exception propagates.  If the session
returns an exit code, the rcfile is unlinked (lines 93-94, before
classification) and the code is classified; on the quit sentinel 0 a
warning is logged (lines 101-102) before `exit(1)`. -/
def InteractiveEvaluator.eval (session : SessionEnd) : InteractiveResult :=
  match session with
  | .interrupted =>
      { outcome := .interruptPropagated
        rcfileExists := true
        warned := false }
  | .exited code =>
      { outcome := interactiveClassify code
        rcfileExists := false
        warned := code == 0 }

/-- Modelled from the spec: `run_cmd` lives in bisect_b2g/util.py, which is
not under src/.  Spec section 2 describes the Command Runner as a leaf that
"executes an external command to completion and reports its exit status".
One invocation is modelled by the exit status `code` the external command
produced, paired with its (unused under rc_only) output.  The Python name
is a reserved word in Lean, hence the camel case. -/
def runCmd (code : Int) : Int × String := (code, "")

/-- ScriptEvaluator.eval (evaluator.py lines 37-41): run the configured
script through the command runner and return `code == 0`. -/
def ScriptEvaluator.eval (scriptExitCode : Int) : Bool :=
  let codeOutput := runCmd scriptExitCode
  codeOutput.1 == 0

/-- Python str.split with a one-character separator, on the character list
of the string.  Mirrors CPython semantics for a nonempty separator: the
empty string splits to one empty field, and separators delimit possibly
empty fields. -/
def pySplitList (sep : Char) : List Char → List (List Char)
  | [] => [[]]
  | c :: cs =>
      match pySplitList sep cs with
      | [] => if c = sep then [[], []] else [[c]]
      | r :: rs => if c = sep then [] :: r :: rs else (c :: r) :: rs

/-- Python str.split with a one-character separator, as used by
InteractiveBuildEvaluator.__init__ on the env string (evaluator.py
lines 125-127). -/
def pySplit (s : String) (sep : Char) : List String :=
  (pySplitList sep s.data).map fun cs => String.mk cs

/-- One iteration of the env-parsing loop body
`edict[p.split('=')[0]] = p.split('=')[1]` (evaluator.py line 127): Python
raises IndexError (here `none`) when the entry has no '='. -/
def parseEnvPair (p : String) : Option (String × String) :=
  let parts := pySplit p '='
  match parts.get? 0, parts.get? 1 with
  | some k, some v => some (k, v)
  | _, _ => none

/-- The whole env-parsing loop of InteractiveBuildEvaluator.__init__
(evaluator.py lines 124-128): split the string on ',' and parse every
entry; the first malformed entry aborts construction (IndexError), so the
result is `none` exactly when some entry has no '='. -/
def parseEnvList (s : String) : Option (List (String × String)) :=
  (pySplit s ',').mapM parseEnvPair

/-- The value held by self.build_info['env'] after __init__: the original
falsy value left untouched (Python None or the empty string), or the parsed
key-to-value mapping in insertion order. -/
inductive EnvValue where
  | pyNone
  | rawString (s : String)
  | mapping (pairs : List (String × String))
deriving DecidableEq

/-- The build_info dict handed to InteractiveBuildEvaluator by the driver
(driver.py lines 218-224): workdir, logdir, and the raw env string, each
possibly None. -/
structure BuildInfo where
  workdir : Option String
  logdir : Option String
  env : Option String
deriving DecidableEq

/-- self.build_info after a successful __init__: workdir and logdir as
supplied, env possibly replaced by its parsed mapping. -/
structure ParsedBuildInfo where
  workdir : Option String
  logdir : Option String
  env : EnvValue
deriving DecidableEq

/-- Python exceptions that the embedded methods can raise. -/
inductive PyError where
  | attributeError (attr : String)
  | indexError
  | keyboardInterrupt
  | evaluatorError (code : Int)
deriving DecidableEq

/-- The mutable attributes of one InteractiveBuildEvaluator instance:
self.build_number, self.log_open, self.build_log (none while the attribute
was never assigned, `some b` a file object with b = still open), and
self.build_info. -/
structure EvaluatorState where
  build_number : Nat
  log_open : Bool
  build_log : Option Bool
  build_info : ParsedBuildInfo
deriving DecidableEq

/-- The attribute values set by a successful InteractiveBuildEvaluator
construction (evaluator.py lines 112-128): build_number starts at 0,
log_open at False, build_log unassigned. -/
def freshState (pbi : ParsedBuildInfo) : EvaluatorState :=
  { build_number := 0
    log_open := false
    build_log := none
    build_info := pbi }

/-- InteractiveBuildEvaluator.__init__ (evaluator.py lines 112-128).  With
no build_info (None), the default branch executes
`self.build_info['workdir'] = os.getcwd()` on the never-assigned attribute
self.build_info and raises AttributeError.  With a build_info dict, a
truthy env string is split on ',' and each entry on '='; a missing '='
raises IndexError inside the constructor; a falsy env (None or empty
string) is left unparsed. -/
def InteractiveBuildEvaluator.init (build_info : Option BuildInfo) :
    Except PyError EvaluatorState :=
  match build_info with
  | none => .error (.attributeError "build_info")
  | some bi =>
      match bi.env with
      | none =>
          .ok (freshState
            { workdir := bi.workdir, logdir := bi.logdir, env := .pyNone })
      | some es =>
          if es = "" then
            .ok (freshState
              { workdir := bi.workdir, logdir := bi.logdir
                env := .rawString es })
          else
            match parseEnvList es with
            | none => .error .indexError
            | some pairs =>
                .ok (freshState
                  { workdir := bi.workdir, logdir := bi.logdir
                    env := .mapping pairs })

/-- Effect of InteractiveBuildEvaluator.notify_status (evaluator.py
lines 164-174) on the evaluator state: on the first output line of a call
with log_open still False it opens the per-build log
(build_%d.log named from build_number) and sets log_open; afterwards it
only writes to the already-held file object.  (When log_open is True but
the file object was closed by a previous call, the write raises inside the
process monitor's delivery, not inside the evaluate call, and changes no
attribute.) -/
def notify_status (s : EvaluatorState) : EvaluatorState :=
  if s.log_open then s
  else { s with log_open := true, build_log := some true }

/-- Effect of InteractiveBuildEvaluator.notify_timeout (evaluator.py
lines 176-180) on the evaluator state: it writes the timeout marker to the
log when open and prints a notice, touching no attribute; its final
`self.log.debug` line faults on the never-assigned attribute self.log, but
like the write this happens inside the process monitor's callback
delivery, outside the evaluate call. -/
def notify_timeout (s : EvaluatorState) : EvaluatorState :=
  s

/-- Delivery of the build's output lines to notify_status, one call per
line in emission order. -/
def applyOutputLines : Nat → EvaluatorState → EvaluatorState
  | 0, s => s
  | n + 1, s => applyOutputLines n (notify_status s)

/-- How one monitored build (ProcessHandler.run / wait in perform_build,
evaluator.py lines 136-149) ended: normal process exit with a code, forced
termination on timeout, or operator interrupt raised into the waiting
evaluate call. -/
inductive BuildOutcome where
  | exited (code : Int)
  | timedOut
  | interrupted
deriving DecidableEq

/-- Abstraction of one monitored build: how many output lines it delivered
to the processOutputLine callback and how it ended. -/
structure BuildRun where
  lines : Nat
  outcome : BuildOutcome
deriving DecidableEq

/-- InteractiveBuildEvaluator.perform_build (evaluator.py lines 130-162).
self.build_number is incremented first (line 133); the monitored build
then delivers its output lines to notify_status and, on timeout,
notify_timeout.  The try/finally around run/wait (lines 145-155) always
executes `self.build_log.close()`: when build_log was never assigned (no
output line ever arrived on this instance) the finally itself raises
AttributeError out of the call; otherwise the file object is closed and an
operator interrupt raised by the try block is re-raised after the close.
The returned pair is the state after the call and the exception it raised,
if any. -/
def perform_build (s : EvaluatorState) (b : BuildRun) :
    EvaluatorState × Option PyError :=
  let s1 : EvaluatorState := { s with build_number := s.build_number + 1 }
  let s2 := applyOutputLines b.lines s1
  let s3 := if b.outcome = .timedOut then notify_timeout s2 else s2
  match s3.build_log with
  | none => (s3, some (.attributeError "build_log"))
  | some _ =>
      ({ s3 with build_log := some false },
       if b.outcome = .interrupted then some .keyboardInterrupt else none)

/-- What one InteractiveBuildEvaluator.eval call does for its caller:
return a value (Python None when the body falls off its end, or a boolean),
raise an exception, or terminate the host process with the given status. -/
inductive BuildEvalReturn where
  | returns (v : Option Bool)
  | raises (e : PyError)
  | hostExits (status : Nat)
deriving DecidableEq

/-- InteractiveBuildEvaluator.eval (evaluator.py lines 185-187): run
perform_build, propagating its exception if it raised; otherwise run
InteractiveEvaluator.eval on the same candidate.  The interactive verdict
is discarded — the method body contains no return statement — so when the
session produces a verdict the call returns Python None; a host exit or an
exception of the interactive step passes through. -/
def InteractiveBuildEvaluator.eval (s : EvaluatorState) (b : BuildRun)
    (session : SessionEnd) : EvaluatorState × BuildEvalReturn :=
  match perform_build s b with
  | (s1, some e) => (s1, .raises e)
  | (s1, none) =>
      match (InteractiveEvaluator.eval session).outcome with
      | .verdict _b => (s1, .returns none)
      | .hostExit n => (s1, .hostExits n)
      | .evaluatorError c => (s1, .raises (.evaluatorError c))
      | .interruptPropagated => (s1, .raises .keyboardInterrupt)

/-- Number of open per-build log handles held by the evaluator instance:
one when the build_log attribute holds a still-open file object, zero
otherwise. -/
def openLogHandles (s : EvaluatorState) : Nat :=
  match s.build_log with
  | some true => 1
  | _ => 0

/-- A sequence of evaluate calls on one InteractiveBuildEvaluator
instance, each given by its monitored build and its interactive session
end, threading the instance state. -/
def runEvals (s : EvaluatorState) : List (BuildRun × SessionEnd) → EvaluatorState
  | [] => s
  | c :: cs => runEvals (InteractiveBuildEvaluator.eval s c.1 c.2).1 cs

/-- The build number each call of a sequence of evaluate calls uses (the
value of self.build_number during that call, after the increment at the
top of perform_build). -/
def buildNumbersUsed (s : EvaluatorState) :
    List (BuildRun × SessionEnd) → List Nat
  | [] => []
  | c :: cs =>
      (InteractiveBuildEvaluator.eval s c.1 c.2).1.build_number
        :: buildNumbersUsed (InteractiveBuildEvaluator.eval s c.1 c.2).1 cs

/-- A concrete parsed build configuration used by the concrete instances
of the theorems below. -/
def sampleBuildInfo : ParsedBuildInfo :=
  { workdir := some "wd", logdir := some "ld", env := .pyNone }

/-- The instance state after one evaluate call is the state perform_build
left behind: the interactive step touches no instance attribute. -/
lemma buildEval_state (s : EvaluatorState) (b : BuildRun) (sess : SessionEnd) :
    (InteractiveBuildEvaluator.eval s b sess).1 = (perform_build s b).1 := by
  rcases h : perform_build s b with ⟨s1, e⟩
  unfold InteractiveBuildEvaluator.eval
  rw [h]
  cases e with
  | some e => rfl
  | none => cases ho : (InteractiveEvaluator.eval sess).outcome <;> simp [ho]

/-- notify_status never changes build_number. -/
lemma notify_status_build_number (s : EvaluatorState) :
    (notify_status s).build_number = s.build_number := by
  unfold notify_status
  split <;> rfl

/-- Delivering output lines never changes build_number. -/
lemma applyOutputLines_build_number (n : Nat) (s : EvaluatorState) :
    (applyOutputLines n s).build_number = s.build_number := by
  induction n generalizing s with
  | zero => rfl
  | succ n ih => rw [applyOutputLines, ih, notify_status_build_number]

/-- perform_build increments build_number by exactly one, whatever the
build did. -/
lemma perform_build_build_number (s : EvaluatorState) (b : BuildRun) :
    (perform_build s b).1.build_number = s.build_number + 1 := by
  unfold perform_build
  dsimp only
  split <;> simp [notify_timeout, applyOutputLines_build_number]

/-- After perform_build returns or raises, the build_log attribute never
holds an open file object: the finally clause closed it, or it was never
assigned. -/
lemma perform_build_handles (s : EvaluatorState) (b : BuildRun) :
    openLogHandles (perform_build s b).1 = 0 := by
  unfold perform_build
  dsimp only
  split
  · next heq => simp [openLogHandles, heq]
  · simp [openLogHandles]

/-- After one full evaluate call, no open log handle remains. -/
lemma buildEval_handles (s : EvaluatorState) (b : BuildRun) (sess : SessionEnd) :
    openLogHandles (InteractiveBuildEvaluator.eval s b sess).1 = 0 := by
  rw [buildEval_state]
  exact perform_build_handles s b

/-- Evaluate calls compose: running a sequence plus one more call is one
more call on the state the sequence reached. -/
lemma runEvals_append (s : EvaluatorState) (cs : List (BuildRun × SessionEnd))
    (c : BuildRun × SessionEnd) :
    runEvals s (cs ++ [c])
      = (InteractiveBuildEvaluator.eval (runEvals s cs) c.1 c.2).1 := by
  induction cs generalizing s with
  | nil => rfl
  | cons d ds ih => rw [List.cons_append, runEvals, runEvals, ih]

/-- Along any sequence of evaluate calls from a handle-free state the
instance never holds an open log handle. -/
lemma runEvals_handles (cs : List (BuildRun × SessionEnd)) (s : EvaluatorState)
    (h : openLogHandles s = 0) : openLogHandles (runEvals s cs) = 0 := by
  induction cs generalizing s with
  | nil => exact h
  | cons c cs ih => exact ih _ (buildEval_handles s c.1 c.2)

/-- The build numbers a sequence of calls uses count up one by one from
just above the starting build_number. -/
lemma buildNumbersUsed_range (cs : List (BuildRun × SessionEnd))
    (s : EvaluatorState) :
    buildNumbersUsed s cs = List.range' (s.build_number + 1) cs.length := by
  induction cs generalizing s with
  | nil => rfl
  | cons c cs ih =>
      rw [buildNumbersUsed, ih, List.length_cons, List.range'_succ,
        buildEval_state, perform_build_build_number]

/-- Claim C1: for every exit code of the interactive shell session,
InteractiveEvaluator.eval yields verdict true exactly on 69, verdict false
exactly on 96, terminates the host process exactly on 0, and raises
EvaluatorError exactly on every other code — no code outside the sentinel
set is coerced to a verdict. -/
theorem interactive_exit_code_classification (c : Int) :
    ((InteractiveEvaluator.eval (.exited c)).outcome = .verdict true ↔ c = 69)
  ∧ ((InteractiveEvaluator.eval (.exited c)).outcome = .verdict false ↔ c = 96)
  ∧ ((InteractiveEvaluator.eval (.exited c)).outcome = .hostExit 1 ↔ c = 0)
  ∧ ((InteractiveEvaluator.eval (.exited c)).outcome = .evaluatorError c
      ↔ (c ≠ 69 ∧ c ≠ 96 ∧ c ≠ 0)) := by
  unfold InteractiveEvaluator.eval interactiveClassify GOOD BAD
  dsimp only
  split_ifs with h1 h2 h3 <;> simp_all

/-- Concrete instance of the classification theorem at exit code 69. -/
theorem interactive_exit_code_classification_witness :
    (InteractiveEvaluator.eval (.exited 69)).outcome = .verdict true :=
  (interactive_exit_code_classification 69).1.mpr rfl

/-- Claim C2 (code bug): with a successful build and a session the human
ends with the `good` command (exit code 69), the interactive step yields
verdict true, yet InteractiveBuildEvaluator.eval returns Python None (its
body has no return statement), not the boolean. -/
theorem buildEval_returns_none_despite_verdict :
    (InteractiveEvaluator.eval (.exited 69)).outcome = .verdict true
  ∧ (InteractiveBuildEvaluator.eval (freshState sampleBuildInfo)
        { lines := 1, outcome := .exited 0 } (.exited 69)).2
      = .returns none :=
  ⟨rfl, rfl⟩

/-- Claim C3: ScriptEvaluator.eval returns true exactly when the external
command exited 0 and false on every nonzero exit code. -/
theorem scriptEval_true_iff_exit_zero (c : Int) :
    (ScriptEvaluator.eval c = true ↔ c = 0)
  ∧ (ScriptEvaluator.eval c = false ↔ c ≠ 0) := by
  unfold ScriptEvaluator.eval runCmd
  constructor <;> simp

/-- Concrete instance of the script-evaluator theorem at exit code 0. -/
theorem scriptEval_true_iff_exit_zero_witness : ScriptEvaluator.eval 0 = true :=
  (scriptEval_true_iff_exit_zero 0).1.mpr rfl

/-- Claim C4: along every sequence of evaluate calls on one Build
Evaluator instance, the number of open build-log handles after each call
(whether it returned or raised) equals the number before the call, and
the log is never left open across calls. -/
theorem buildEval_log_handles_balanced (pbi : ParsedBuildInfo)
    (calls : List (BuildRun × SessionEnd)) (c : BuildRun × SessionEnd) :
    openLogHandles (runEvals (freshState pbi) (calls ++ [c]))
      = openLogHandles (runEvals (freshState pbi) calls)
  ∧ openLogHandles (runEvals (freshState pbi) calls)
      = openLogHandles (freshState pbi) := by
  have h0 : openLogHandles (freshState pbi) = 0 := rfl
  have h1 : openLogHandles (runEvals (freshState pbi) calls) = 0 :=
    runEvals_handles calls _ h0
  have h2 : openLogHandles (runEvals (freshState pbi) (calls ++ [c])) = 0 := by
    rw [runEvals_append]
    exact buildEval_handles _ c.1 c.2
  exact ⟨h2.trans h1.symm, h1.trans h0.symm⟩

/-- Concrete instance of the handle-balance theorem: one successful call
after an empty history. -/
theorem buildEval_log_handles_balanced_witness :
    openLogHandles (runEvals (freshState sampleBuildInfo)
        ([] ++ [({ lines := 1, outcome := .exited 0 }, SessionEnd.exited 69)]))
      = openLogHandles (runEvals (freshState sampleBuildInfo) []) :=
  (buildEval_log_handles_balanced sampleBuildInfo []
    ({ lines := 1, outcome := .exited 0 }, SessionEnd.exited 69)).1

/-- Claim C5 (counterexample): when the shell session itself is
interrupted (subprocess.call raises), InteractiveEvaluator.eval has no
try/finally around the unlink, so the temporary initialization script is
left on disk — the claim that it is removed on every exit path including
interruption of the session is false at this input. -/
theorem rcfile_left_behind_on_interrupt :
    (InteractiveEvaluator.eval SessionEnd.interrupted).rcfileExists = true :=
  rfl

/-- Claim C5 (amended): on every path where the shell session returns an
exit code — normal verdict, the quit/abort path, and the EvaluatorError
path — the temporary initialization script is removed before
InteractiveEvaluator.eval returns, raises, or exits the host. -/
theorem rcfile_removed_when_session_exits (c : Int) :
    (InteractiveEvaluator.eval (.exited c)).rcfileExists = false :=
  rfl

/-- Concrete instance of the amended cleanup theorem at exit code 96. -/
theorem rcfile_removed_when_session_exits_witness :
    (InteractiveEvaluator.eval (.exited 96)).rcfileExists = false :=
  rcfile_removed_when_session_exits 96

/-- Claim C6 (code bug): on the first evaluate call of an instance, a
build that exits nonzero without emitting any output line leaves build_log
unassigned (the log opens lazily in notify_status), so the finally clause
of perform_build raises AttributeError and the call aborts without ever
reaching the interactive verdict step — even though the session would have
answered good. -/
theorem buildEval_aborts_on_outputless_failed_build :
    (InteractiveBuildEvaluator.eval (freshState sampleBuildInfo)
        { lines := 0, outcome := .exited 1 } (.exited 69)).2
      = .raises (.attributeError "build_log") :=
  rfl

/-- Claim C7: constructing a Build Evaluator parses the supplied
environment string at construction time: "A=1,B=2" becomes the mapping
A maps-to 1, B maps-to 2, while "A=1,B" raises (IndexError) inside the
constructor, before any build starts. -/
theorem init_env_parsing (w l : Option String) :
    InteractiveBuildEvaluator.init
        (some { workdir := w, logdir := l, env := some "A=1,B=2" })
      = .ok (freshState
          { workdir := w, logdir := l, env := .mapping [("A", "1"), ("B", "2")] })
  ∧ InteractiveBuildEvaluator.init
        (some { workdir := w, logdir := l, env := some "A=1,B" })
      = .error .indexError := by
  constructor <;> rfl

/-- Concrete instance of the env-parsing theorem with no workdir/logdir. -/
theorem init_env_parsing_witness :
    InteractiveBuildEvaluator.init
        (some { workdir := none, logdir := none, env := some "A=1,B=2" })
      = .ok (freshState
          { workdir := none, logdir := none
            env := .mapping [("A", "1"), ("B", "2")] }) :=
  (init_env_parsing none none).1

/-- Claim C8: on one Build Evaluator instance the build number used by the
first evaluate call is 1 and each successive call uses exactly the next
integer, whatever each build did (success, failure, timeout or
interrupt). -/
theorem buildNumbers_start_at_one_and_increment (pbi : ParsedBuildInfo)
    (calls : List (BuildRun × SessionEnd)) :
    buildNumbersUsed (freshState pbi) calls = List.range' 1 calls.length := by
  rw [buildNumbersUsed_range]
  rfl

/-- Concrete instance of the build-number theorem: a failed build then a
timed-out build use numbers 1 and 2. -/
theorem buildNumbers_start_at_one_and_increment_witness :
    buildNumbersUsed (freshState sampleBuildInfo)
        [({ lines := 0, outcome := .exited 1 }, SessionEnd.exited 69),
         ({ lines := 3, outcome := .timedOut }, SessionEnd.exited 96)]
      = List.range' 1 2 :=
  buildNumbers_start_at_one_and_increment sampleBuildInfo
    [({ lines := 0, outcome := .exited 1 }, SessionEnd.exited 69),
     ({ lines := 3, outcome := .timedOut }, SessionEnd.exited 96)]

/-- Claim C9: constructing a Build Evaluator with no build configuration
(build_info None) raises before any evaluation can begin: the default
branch assigns into the never-initialized build_info attribute, so no
default configuration object is ever produced. -/
theorem init_without_build_info_raises :
    InteractiveBuildEvaluator.init none = .error (.attributeError "build_info") :=
  rfl

/-- Claim C10: when the interactive session ends via the quit sentinel
(exit code 0), the evaluator logs a warning and terminates the host
process with exit status 1 — a nonzero status, not 0. -/
theorem quit_sentinel_exits_host_status_one :
    InteractiveEvaluator.eval (.exited 0)
      = { outcome := .hostExit 1, rcfileExists := false, warned := true } :=
  rfl
